import Mathlib

/-!
Verification development for the reaction-to-message reconciliation engine
of this client (src/ts/messageModifiers/Reactions.ts), the lightbox
selected-index selector (src/ts/state/selectors/lightbox.ts) and the
groups-in-common panel (ConversationDetailsGroups.tsx).

The TypeScript code is shallowly embedded: Backbone models become Lean
structures, the Backbone collection becomes a list of records carrying a
client id (cid) used for identity-based removal, external collaborators
(identity directory, message store, conversation directory, the serialized
per-conversation job queue, saveMessage, handleReaction) become fields of an
explicit environment, and the effects of onReaction are recorded in an
explicit result trace. Asynchronous store state is split into two snapshots:
the snapshot seen at the initial best-effort lookup and the snapshot seen at
apply time inside the conversation queue, since the queueing delay means the
two reads may observe different data.
-/

namespace Signal

/-- Story reaction metadata set on the generated placeholder message
(field storyReaction in Reactions.ts, lines 180-184). -/
structure StoryReactionData where
  emoji : String
  targetAuthorUuid : String
  targetTimestamp : Nat
deriving Repr, DecidableEq

/-- Message kind, driving the external classifiers isOutgoing and isStory
(spec section 6: message classification collaborators). -/
inductive MessageKind where
  | incoming
  | outgoing
  | story
  | other
deriving Repr, DecidableEq

/-- Attributes of a message model, restricted to the fields read or written
by the embedded code: id, sent_at, conversationId, kind, the sender contact
id, expireTimer, storyId and storyReaction. -/
structure MessageAttributes where
  id : String
  sent_at : Nat
  conversationId : String
  kind : MessageKind
  /-- Modelled from the spec: the sender identity of the message as
  returned by the helpers getContact / getContactId (src/ts/messages/helpers
  is not part of this extract); none models an undefined contact, which
  findMessage in Reactions.ts explicitly guards against. -/
  sender : Option String
  expireTimer : Option Nat := none
  storyId : Option String := none
  storyReaction : Option StoryReactionData := none
deriving Repr, DecidableEq

/-- Modelled from the spec: isOutgoingMessage classification collaborator
(spec section 6); in the code, isOutgoing from state/selectors/message. -/
def isOutgoing (m : MessageAttributes) : Bool :=
  m.kind == MessageKind.outgoing

/-- Modelled from the spec: isStoryMessage classification collaborator
(spec section 6); in the code, isStory from state/selectors/message. -/
def isStory (m : MessageAttributes) : Bool :=
  m.kind == MessageKind.story

/-- Modelled from the spec: getContactId returns the message sender
identity (or none when no contact is derivable). -/
def getContactId (m : MessageAttributes) : Option String :=
  m.sender

/-- Conversation model, restricted to the fields the embedded code reads:
id, the isDirectConversation / isMe classifications (spec section 6) and
expireTimer. -/
structure ConversationModel where
  id : String
  isDirect : Bool := false
  isMe : Bool := false
  expireTimer : Option Nat := none
deriving Repr, DecidableEq

/-- A reaction record (ReactionModel). The cid field is the Backbone
client id: collection removal is by model identity, which Backbone
implements through the cid. -/
structure ReactionModel where
  cid : Nat
  emoji : String
  targetAuthorUuid : String
  targetTimestamp : Nat
  timestamp : Nat
deriving Repr, DecidableEq

/-- Environment of external collaborators (spec section 6). The message
store is split into the snapshot observed by the initial best-effort lookup
and the snapshot observed by the re-fetch inside the conversation queue.
saveOk models success of window.Signal.Data.saveMessage together with
hydrateStoryContext (they run in one Promise.all); handleOk models success
of MessageModel.handleReaction, which is outside this extract. -/
structure Env where
  /-- window.ConversationController.lookupOrCreate, projected to the
  conversation id the code reads from it. -/
  lookupOrCreate : String → Option String
  /-- window.ConversationController.get. -/
  getConversation : String → Option ConversationModel
  /-- window.ConversationController.getConversationForTargetMessage. -/
  getConversationForTargetMessage : String → Nat → Option ConversationModel
  /-- window.Signal.Data.getMessagesBySentAt, at initial-lookup time. -/
  messagesAtLookup : Nat → List MessageAttributes
  /-- window.Signal.Data.getMessagesBySentAt, at apply time inside the
  conversation queue. -/
  messagesAtApply : Nat → List MessageAttributes
  saveOk : Bool := true
  handleOk : Bool := true

namespace Reactions

/-- Backbone remove(model): drops the model with the given client id from
the collection. -/
def removeOne (coll : List ReactionModel) (r : ReactionModel) : List ReactionModel :=
  coll.filter fun x => x.cid != r.cid

/-- Backbone remove(models): drops every listed model from the collection. -/
def removeAll (coll : List ReactionModel) (rs : List ReactionModel) : List ReactionModel :=
  coll.filter fun x => rs.all fun r => r.cid != x.cid

/-- Result of Reactions.forMessage: the returned array, the collection
after the call, and how many times lookupOrCreate was invoked while
filtering. -/
structure ForMessageResult where
  returned : List ReactionModel
  collection : List ReactionModel
  lookupOrCreateCalls : Nat
deriving Repr, DecidableEq

/-- The sender-identity filtering path of forMessage (Reactions.ts lines
46-63): keep records whose lookupOrCreate result equals the message sender
id (JavaScript === on two possibly-undefined values) and whose
targetTimestamp equals sent_at; remove and return them when nonempty. The
filter invokes lookupOrCreate once per record in the collection. -/
def forMessageBySource (env : Env) (message : MessageAttributes)
    (coll : List ReactionModel) : ForMessageResult :=
  let senderId := getContactId message
  let reactionsBySource := coll.filter fun re =>
    env.lookupOrCreate re.targetAuthorUuid == senderId
      && re.targetTimestamp == message.sent_at
  if reactionsBySource.length > 0 then
    { returned := reactionsBySource
      collection := removeAll coll reactionsBySource
      lookupOrCreateCalls := coll.length }
  else
    { returned := []
      collection := coll
      lookupOrCreateCalls := coll.length }

/-- Reactions.forMessage (Reactions.ts lines 33-64). For an outgoing
message, first try the timestamp-only match; when it claims nothing, fall
through to the sender-identity path. -/
def forMessage (env : Env) (message : MessageAttributes)
    (coll : List ReactionModel) : ForMessageResult :=
  if isOutgoing message then
    let outgoingReactions := coll.filter fun item =>
      item.targetTimestamp == message.sent_at
    if outgoingReactions.length > 0 then
      { returned := outgoingReactions
        collection := removeAll coll outgoingReactions
        lookupOrCreateCalls := 0 }
    else
      forMessageBySource env message coll
  else
    forMessageBySource env message coll

/-- Reactions.findMessage (lines 66-84): among the messages sent at the
target timestamp, the first whose contact resolves and whose contact id
equals the target conversation id. -/
def findMessage (store : Nat → List MessageAttributes) (targetTimestamp : Nat)
    (targetConversationId : String) : Option MessageAttributes :=
  (store targetTimestamp).find? fun m =>
    match m.sender with
    | none => false
    | some mcid => mcid == targetConversationId

/-- Trace of one onReaction invocation: the collection afterwards, which
conversation (by id) received the queue job if any, the handleReaction
calls made (target message id, reaction cid), the successful saveMessage
writes (attributes, forceSave flag), the ids passed to addSingleMessage,
the generated message after any set, the log lines, and whether an error
was caught by the outer try/catch. -/
structure OnReactionResult where
  collection : List ReactionModel
  generatedMessage : MessageAttributes
  enqueuedOn : Option String := none
  handleReactionCalls : List (String × Nat) := []
  savedMessages : List (MessageAttributes × Bool) := []
  addedMessageIds : List String := []
  logs : List String := []
  errorCaught : Bool := false
deriving Repr, DecidableEq

/-- Target-conversation choice of onReaction (lines 125-138): the sending
conversation when it exists, the candidate is a story, the sending
conversation is direct and not our own; otherwise
getConversationForTargetMessage. -/
def resolveTargetConversation (env : Env) (generatedMessage : MessageAttributes)
    (targetMessageCheck : MessageAttributes) (targetConversationId : String)
    (targetTimestamp : Nat) : Option ConversationModel :=
  match env.getConversation generatedMessage.conversationId with
  | some fromConversation =>
    if isStory targetMessageCheck && fromConversation.isDirect
        && !fromConversation.isMe then
      some fromConversation
    else
      env.getConversationForTargetMessage targetConversationId targetTimestamp
  | none => env.getConversationForTargetMessage targetConversationId targetTimestamp

/-- The queue job of onReaction (lines 150-217): re-fetch the target
message from the apply-time store snapshot; on a story, set the placeholder
fields, save with forceSave, add the placeholder to the conversation; then
call handleReaction and finally remove the reaction from the collection. A
rejection at any await skips the rest of the job and surfaces as a caught
error at the onReaction boundary. -/
def applyStep (env : Env) (reaction : ReactionModel)
    (generatedMessage : MessageAttributes) (coll : List ReactionModel)
    (targetConversationId : String) (targetConversation : ConversationModel) :
    OnReactionResult :=
  match findMessage env.messagesAtApply reaction.targetTimestamp targetConversationId with
  | none =>
    { collection := coll
      generatedMessage := generatedMessage
      enqueuedOn := some targetConversation.id
      logs := ["Handling reaction for"] }
  | some targetMessage =>
    if isStory targetMessage then
      let gm : MessageAttributes :=
        { generatedMessage with
          expireTimer := targetConversation.expireTimer
          storyId := some targetMessage.id
          storyReaction := some
            { emoji := reaction.emoji
              targetAuthorUuid := reaction.targetAuthorUuid
              targetTimestamp := reaction.targetTimestamp } }
      if env.saveOk then
        if env.handleOk then
          { collection := removeOne coll reaction
            generatedMessage := gm
            enqueuedOn := some targetConversation.id
            handleReactionCalls := [(targetMessage.id, reaction.cid)]
            savedMessages := [(gm, true)]
            addedMessageIds := [gm.id]
            logs := ["Handling reaction for",
                     "Reactions.onReaction adding reaction to story"] }
        else
          { collection := coll
            generatedMessage := gm
            enqueuedOn := some targetConversation.id
            handleReactionCalls := [(targetMessage.id, reaction.cid)]
            savedMessages := [(gm, true)]
            addedMessageIds := [gm.id]
            logs := ["Handling reaction for",
                     "Reactions.onReaction adding reaction to story",
                     "Reactions.onReaction error"]
            errorCaught := true }
      else
        { collection := coll
          generatedMessage := gm
          enqueuedOn := some targetConversation.id
          logs := ["Handling reaction for", "Reactions.onReaction error"]
          errorCaught := true }
    else
      if env.handleOk then
        { collection := removeOne coll reaction
          generatedMessage := generatedMessage
          enqueuedOn := some targetConversation.id
          handleReactionCalls := [(targetMessage.id, reaction.cid)]
          logs := ["Handling reaction for"] }
      else
        { collection := coll
          generatedMessage := generatedMessage
          enqueuedOn := some targetConversation.id
          handleReactionCalls := [(targetMessage.id, reaction.cid)]
          logs := ["Handling reaction for", "Reactions.onReaction error"]
          errorCaught := true }

/-- Reactions.onReaction (lines 86-221). Resolve the target author through
lookupOrCreate (a failed lookup throws and is caught as a logged error),
perform the initial best-effort lookup against the lookup-time store
snapshot, choose the target conversation, and enqueue the apply step on
that conversation. -/
def onReaction (env : Env) (reaction : ReactionModel)
    (generatedMessage : MessageAttributes) (coll : List ReactionModel) :
    OnReactionResult :=
  match env.lookupOrCreate reaction.targetAuthorUuid with
  | none =>
    { collection := coll
      generatedMessage := generatedMessage
      logs := ["Reactions.onReaction error"]
      errorCaught := true }
  | some targetConversationId =>
    match findMessage env.messagesAtLookup reaction.targetTimestamp targetConversationId with
    | none =>
      { collection := coll
        generatedMessage := generatedMessage
        logs := ["No message for reaction"] }
    | some targetMessageCheck =>
      match resolveTargetConversation env generatedMessage targetMessageCheck
          targetConversationId reaction.targetTimestamp with
      | none =>
        { collection := coll
          generatedMessage := generatedMessage
          logs := ["No target conversation for reaction"] }
      | some targetConversation =>
        applyStep env reaction generatedMessage coll targetConversationId
          targetConversation

end Reactions

namespace Lightbox

/-- Attachment of a media item; path may be undefined. -/
structure AttachmentData where
  path : Option String
deriving Repr, DecidableEq

/-- Media item shown in the lightbox (MediaItemType, restricted to the
field read by the selector). -/
structure MediaItemType where
  attachment : AttachmentData
deriving Repr, DecidableEq

/-- Lightbox slice of the redux state (LightboxStateType, restricted to
the fields the selectors read). -/
structure LightboxStateType where
  isShowingLightbox : Bool
  selectedAttachmentPath : Option String
  media : List MediaItemType
deriving Repr, DecidableEq

/-- JavaScript Array.prototype.findIndex: index of the first match, or -1
when no element matches. -/
def jsFindIndex (l : List MediaItemType) (p : MediaItemType → Bool) : Int :=
  match l.findIdx? p with
  | some i => (i : Int)
  | none => -1

/-- getSelectedIndex (lightbox.ts lines 22-35): 0 when the lightbox is not
showing; otherwise findIndex over media by attachment path equality
(JavaScript === on two possibly-undefined strings), clamped so that any
non-positive index becomes 0. -/
def getSelectedIndex (state : LightboxStateType) : Int :=
  if !state.isShowingLightbox then 0
  else
    let index := jsFindIndex state.media fun item =>
      item.attachment.path == state.selectedAttachmentPath
    if index > 0 then index else 0

end Lightbox

namespace DetailsGroups

/-- Render outcome of ConversationDetailsGroups: which groups get a row,
and whether the show-all row is present. -/
structure GroupsRender where
  groupRows : List ConversationModel
  showAllRow : Bool
deriving Repr, DecidableEq

/-- maxShownGroupCount in ConversationDetailsGroups.tsx. -/
def maxShownGroupCount : Nat := 5

/-- ConversationDetailsGroups (lines 30-36 and 70-81): the group rows are
groupsInCommon.slice(0, groupsToShow) where groupsToShow is the full
length when expanded and maxShownGroupCount when collapsed; the show-all
row renders iff not expanded and groupsInCommon.length -
maxShownGroupCount > 1 (JavaScript number subtraction, hence over Int). -/
def conversationDetailsGroupsRender (showAllGroups : Bool)
    (groupsInCommon : List ConversationModel) : GroupsRender :=
  let isMoreThanMaxShown : Bool :=
    decide ((groupsInCommon.length : Int) - (maxShownGroupCount : Int) > 1)
  let groupsToShow :=
    if showAllGroups then groupsInCommon.length else maxShownGroupCount
  { groupRows := groupsInCommon.take groupsToShow
    showAllRow := !showAllGroups && isMoreThanMaxShown }

end DetailsGroups

/-! ## Helper lemmas -/

namespace Reactions

/-- Removing a reaction leaves no record with its cid in the collection. -/
theorem cid_not_mem_removeOne (coll : List ReactionModel) (r : ReactionModel) :
    r.cid ∉ (removeOne coll r).map (fun x => x.cid) := by
  intro hmem
  rcases List.mem_map.mp hmem with ⟨x, hx, hcid⟩
  rcases List.mem_filter.mp hx with ⟨-, hne⟩
  simp only [bne_iff_ne, ne_eq, decide_eq_true_eq] at hne
  exact hne hcid

/-- When the cids in the collection are pairwise distinct (as Backbone
client ids are), removing the records selected by a predicate is the same
as keeping the records the predicate rejects. -/
theorem removeAll_filter (coll : List ReactionModel) (p : ReactionModel → Bool)
    (h : (coll.map (fun x => x.cid)).Nodup) :
    removeAll coll (coll.filter p) = coll.filter (fun x => !(p x)) := by
  unfold removeAll
  apply List.filter_congr
  intro x hx
  by_cases hp : p x = true
  · have hxf : x ∈ coll.filter p := List.mem_filter.mpr ⟨hx, hp⟩
    simp only [hp, Bool.not_true]
    apply List.all_eq_false.mpr
    refine ⟨x, hxf, ?_⟩
    simp
  · simp only [Bool.not_eq_true] at hp
    simp only [hp, Bool.not_false]
    apply List.all_eq_true.mpr
    intro r hr
    rcases List.mem_filter.mp hr with ⟨hrmem, hrp⟩
    simp only [bne_iff_ne, ne_eq, decide_eq_true_eq]
    intro hcid
    have hinj := List.inj_on_of_nodup_map h hrmem hx hcid
    rw [hinj] at hrp
    rw [hrp] at hp
    cases hp

end Reactions

/-! ## Concrete fixtures used by witnesses and counterexamples -/

/-- A plain conversation. -/
def convA : ConversationModel := { id := "conv-a" }

/-- A direct conversation distinct from our own. -/
def convDirect : ConversationModel := { id := "conv-d", isDirect := true }

/-- An incoming message from the contact of convA sent at 1000. -/
def msgIncoming : MessageAttributes :=
  { id := "m1", sent_at := 1000, conversationId := "conv-a"
    kind := MessageKind.incoming, sender := some "conv-a" }

/-- A story message from the contact of convA sent at 1000. -/
def msgStory : MessageAttributes :=
  { id := "st1", sent_at := 1000, conversationId := "conv-a"
    kind := MessageKind.story, sender := some "conv-a" }

/-- An outgoing message sent at 1000. -/
def msgOutgoing : MessageAttributes :=
  { id := "m2", sent_at := 1000, conversationId := "conv-a"
    kind := MessageKind.outgoing, sender := some "me" }

/-- The generated placeholder message carried with a reaction event,
arriving in the direct conversation convDirect. -/
def gmA : MessageAttributes :=
  { id := "g1", sent_at := 2000, conversationId := "conv-d"
    kind := MessageKind.incoming, sender := some "conv-d" }

/-- A reaction targeting the message sent at 1000 by uuid-a. -/
def reA : ReactionModel :=
  { cid := 1, emoji := "A", targetAuthorUuid := "uuid-a"
    targetTimestamp := 1000, timestamp := 2000 }

/-- Environment where uuid-a resolves to conv-a and the incoming message
is present in both store snapshots. -/
def envOk : Env :=
  { lookupOrCreate := fun u => if u == "uuid-a" then some "conv-a" else none
    getConversation := fun i =>
      if i == "conv-d" then some convDirect
      else if i == "conv-a" then some convA else none
    getConversationForTargetMessage := fun i _ =>
      if i == "conv-a" then some convA else none
    messagesAtLookup := fun t => if t == 1000 then [msgIncoming] else []
    messagesAtApply := fun t => if t == 1000 then [msgIncoming] else [] }

/-- Environment like envOk but the stored message is a story. -/
def envStory : Env :=
  { envOk with
    messagesAtLookup := fun t => if t == 1000 then [msgStory] else []
    messagesAtApply := fun t => if t == 1000 then [msgStory] else [] }

/-- Environment where the identity directory cannot resolve any uuid. -/
def envNoAuthor : Env :=
  { envOk with lookupOrCreate := fun _ => none }

/-- Environment where no message is stored at any timestamp. -/
def envNoMsg : Env :=
  { envOk with
    messagesAtLookup := fun _ => []
    messagesAtApply := fun _ => [] }

/-- Environment where handleReaction rejects. -/
def envHandleFails : Env := { envOk with handleOk := false }

/-! ## Claim theorems -/

namespace Reactions

/-- C6: when lookupOrCreate yields no conversation for the target author
uuid, onReaction catches the thrown error and logs it, enqueues no job,
calls no handleReaction, saves and adds nothing, leaves the collection and
the generated message untouched, and returns normally. -/
theorem onReaction_unresolvable_author_drops (env : Env) (reaction : ReactionModel)
    (gm : MessageAttributes) (coll : List ReactionModel)
    (h : env.lookupOrCreate reaction.targetAuthorUuid = none) :
    (onReaction env reaction gm coll).errorCaught = true ∧
    (onReaction env reaction gm coll).logs = ["Reactions.onReaction error"] ∧
    (onReaction env reaction gm coll).enqueuedOn = none ∧
    (onReaction env reaction gm coll).handleReactionCalls = [] ∧
    (onReaction env reaction gm coll).savedMessages = [] ∧
    (onReaction env reaction gm coll).addedMessageIds = [] ∧
    (onReaction env reaction gm coll).collection = coll ∧
    (onReaction env reaction gm coll).generatedMessage = gm := by
  unfold onReaction
  rw [h]
  exact ⟨rfl, rfl, rfl, rfl, rfl, rfl, rfl, rfl⟩

/-- C6 witness: the unresolvable-author drop at a concrete input. -/
theorem onReaction_unresolvable_author_drops_witness :
    (onReaction envNoAuthor reA gmA [reA]).errorCaught = true ∧
    (onReaction envNoAuthor reA gmA [reA]).logs = ["Reactions.onReaction error"] ∧
    (onReaction envNoAuthor reA gmA [reA]).enqueuedOn = none ∧
    (onReaction envNoAuthor reA gmA [reA]).handleReactionCalls = [] ∧
    (onReaction envNoAuthor reA gmA [reA]).savedMessages = [] ∧
    (onReaction envNoAuthor reA gmA [reA]).addedMessageIds = [] ∧
    (onReaction envNoAuthor reA gmA [reA]).collection = [reA] ∧
    (onReaction envNoAuthor reA gmA [reA]).generatedMessage = gmA :=
  onReaction_unresolvable_author_drops envNoAuthor reA gmA [reA] rfl

/-- C7: when the initial best-effort lookup finds no stored message for
the resolved target author at the target timestamp, onReaction logs and
returns: no job is enqueued, nothing is saved, added or handled, no error
is caught, and the collection is unchanged, so the reaction stays pending. -/
theorem onReaction_no_candidate_keeps_pending (env : Env) (reaction : ReactionModel)
    (gm : MessageAttributes) (coll : List ReactionModel) (tcid : String)
    (h1 : env.lookupOrCreate reaction.targetAuthorUuid = some tcid)
    (h2 : findMessage env.messagesAtLookup reaction.targetTimestamp tcid = none) :
    (onReaction env reaction gm coll).logs = ["No message for reaction"] ∧
    (onReaction env reaction gm coll).enqueuedOn = none ∧
    (onReaction env reaction gm coll).handleReactionCalls = [] ∧
    (onReaction env reaction gm coll).savedMessages = [] ∧
    (onReaction env reaction gm coll).addedMessageIds = [] ∧
    (onReaction env reaction gm coll).errorCaught = false ∧
    (onReaction env reaction gm coll).collection = coll ∧
    (onReaction env reaction gm coll).generatedMessage = gm := by
  unfold onReaction
  rw [h1]
  simp only [h2]
  exact ⟨trivial, trivial, trivial, trivial, trivial, trivial, trivial, trivial⟩

/-- C7 witness: the no-candidate path at a concrete input, with the
reaction still present in the collection afterwards. -/
theorem onReaction_no_candidate_keeps_pending_witness :
    (onReaction envNoMsg reA gmA [reA]).logs = ["No message for reaction"] ∧
    (onReaction envNoMsg reA gmA [reA]).enqueuedOn = none ∧
    (onReaction envNoMsg reA gmA [reA]).handleReactionCalls = [] ∧
    (onReaction envNoMsg reA gmA [reA]).savedMessages = [] ∧
    (onReaction envNoMsg reA gmA [reA]).addedMessageIds = [] ∧
    (onReaction envNoMsg reA gmA [reA]).errorCaught = false ∧
    (onReaction envNoMsg reA gmA [reA]).collection = [reA] ∧
    (onReaction envNoMsg reA gmA [reA]).generatedMessage = gmA :=
  onReaction_no_candidate_keeps_pending envNoMsg reA gmA [reA] "conv-a" rfl rfl

/-- C2: for an outgoing message with at least one buffered reaction whose
target timestamp equals the message send timestamp, forMessage returns
exactly the timestamp-matching reactions, removes exactly those from the
collection, and never invokes lookupOrCreate. -/
theorem forMessage_outgoing_shortcircuit (env : Env) (message : MessageAttributes)
    (coll : List ReactionModel)
    (hout : isOutgoing message = true)
    (hnodup : (coll.map (fun x => x.cid)).Nodup)
    (hne : coll.filter (fun item => item.targetTimestamp == message.sent_at) ≠ []) :
    (forMessage env message coll).returned =
      coll.filter (fun item => item.targetTimestamp == message.sent_at) ∧
    (forMessage env message coll).collection =
      coll.filter (fun item => !(item.targetTimestamp == message.sent_at)) ∧
    (forMessage env message coll).lookupOrCreateCalls = 0 := by
  unfold forMessage
  rw [hout]
  have hlen :
      0 < (coll.filter fun item => item.targetTimestamp == message.sent_at).length :=
    List.length_pos.mpr hne
  rw [if_pos rfl, if_pos hlen]
  exact ⟨rfl, removeAll_filter coll _ hnodup, rfl⟩

/-- C2 witness: the outgoing short-circuit at a concrete input claims the
single timestamp-matching reaction with zero lookupOrCreate calls. -/
theorem forMessage_outgoing_shortcircuit_witness :
    (forMessage envOk msgOutgoing [reA]).returned = [reA] ∧
    (forMessage envOk msgOutgoing [reA]).collection = [] ∧
    (forMessage envOk msgOutgoing [reA]).lookupOrCreateCalls = 0 := by
  have h := forMessage_outgoing_shortcircuit envOk msgOutgoing [reA]
    (by decide) (by decide) (by decide)
  exact ⟨h.1.trans (by decide), h.2.1.trans (by decide), h.2.2⟩

/-- C3: on the sender-identity path (message not outgoing, or outgoing
with no timestamp-only match), for a message whose sender contact id
exists, forMessage returns exactly the reactions whose target author uuid
resolves to that sender id with matching target timestamp, and keeps
exactly the others; in particular when nothing matches it returns the
empty array and leaves the collection unchanged. -/
theorem forMessage_by_sender_identity (env : Env) (message : MessageAttributes)
    (coll : List ReactionModel) (senderId : String)
    (hsender : getContactId message = some senderId)
    (hnodup : (coll.map (fun x => x.cid)).Nodup)
    (hpath : isOutgoing message = false ∨
      coll.filter (fun item => item.targetTimestamp == message.sent_at) = []) :
    (forMessage env message coll).returned =
      coll.filter (fun re =>
        env.lookupOrCreate re.targetAuthorUuid == some senderId
          && re.targetTimestamp == message.sent_at) ∧
    (forMessage env message coll).collection =
      coll.filter (fun re =>
        !(env.lookupOrCreate re.targetAuthorUuid == some senderId
          && re.targetTimestamp == message.sent_at)) := by
  have hbs : forMessage env message coll = forMessageBySource env message coll := by
    unfold forMessage
    cases hout : isOutgoing message with
    | false => rw [if_neg (by simp)]
    | true =>
      rcases hpath with hno | hempty
      · rw [hout] at hno
        cases hno
      · rw [if_pos rfl, hempty]
        simp
  rw [hbs]
  simp only [forMessageBySource, hsender]
  by_cases hlen :
      0 < (coll.filter fun re =>
        env.lookupOrCreate re.targetAuthorUuid == some senderId
          && re.targetTimestamp == message.sent_at).length
  · rw [if_pos hlen]
    exact ⟨rfl, removeAll_filter coll _ hnodup⟩
  · rw [if_neg hlen]
    have hempty : (coll.filter fun re =>
        env.lookupOrCreate re.targetAuthorUuid == some senderId
          && re.targetTimestamp == message.sent_at) = [] := by
      rcases h : coll.filter _ with _ | ⟨a, l⟩
      · rfl
      · rw [h] at hlen
        simp at hlen
    refine ⟨hempty.symm, ?_⟩
    have hall := List.filter_eq_nil_iff.mp hempty
    symm
    apply List.filter_eq_self.mpr
    intro a ha
    have hfa := hall a ha
    simp only [Bool.not_eq_true] at hfa
    simp [hfa]

/-- C3 witness: a non-outgoing message with one matching buffered
reaction; forMessage returns it and empties the collection. -/
theorem forMessage_by_sender_identity_witness :
    (forMessage envOk msgIncoming [reA]).returned = [reA] ∧
    (forMessage envOk msgIncoming [reA]).collection = [] := by
  have h := forMessage_by_sender_identity envOk msgIncoming [reA] "conv-a"
    rfl (by decide) (Or.inl (by decide))
  exact ⟨h.1.trans (by decide), h.2.trans (by decide)⟩

/-- Helper: whichever branch the apply step takes, the queue job was
enqueued on the chosen target conversation. -/
theorem applyStep_enqueuedOn (env : Env) (reaction : ReactionModel)
    (gm : MessageAttributes) (coll : List ReactionModel) (tcid : String)
    (tc : ConversationModel) :
    (applyStep env reaction gm coll tcid tc).enqueuedOn = some tc.id := by
  unfold applyStep
  cases findMessage env.messagesAtApply reaction.targetTimestamp tcid with
  | none => rfl
  | some tm =>
    cases hst : isStory tm <;> cases hs : env.saveOk <;> cases hh : env.handleOk <;>
      simp [hst, hs, hh]

/-- Helper: once the author lookup has produced tcid and the initial
lookup has produced a candidate, onReaction reduces to the
target-conversation match. -/
theorem onReaction_after_candidate (env : Env) (reaction : ReactionModel)
    (gm : MessageAttributes) (coll : List ReactionModel) (tcid : String)
    (mck : MessageAttributes)
    (h1 : env.lookupOrCreate reaction.targetAuthorUuid = some tcid)
    (h2 : findMessage env.messagesAtLookup reaction.targetTimestamp tcid = some mck) :
    onReaction env reaction gm coll =
      match resolveTargetConversation env gm mck tcid reaction.targetTimestamp with
      | none =>
        { collection := coll
          generatedMessage := gm
          logs := ["No target conversation for reaction"] }
      | some tconv => applyStep env reaction gm coll tcid tconv := by
  unfold onReaction
  rw [h1]
  simp only [h2]

/-- C4: when a candidate target message was found, the queue job lands on
the sending conversation exactly when it exists, the candidate is a story,
and the sending conversation is direct and not our own; in every other
case the target is the getConversationForTargetMessage result, and when
that is absent the reaction is dropped with a log and nothing is enqueued,
handled, saved or removed. -/
theorem onReaction_target_conversation_choice (env : Env) (reaction : ReactionModel)
    (gm : MessageAttributes) (coll : List ReactionModel) (tcid : String)
    (tmc : MessageAttributes)
    (h1 : env.lookupOrCreate reaction.targetAuthorUuid = some tcid)
    (h2 : findMessage env.messagesAtLookup reaction.targetTimestamp tcid = some tmc) :
    (∀ fc, env.getConversation gm.conversationId = some fc →
      (isStory tmc && fc.isDirect && !fc.isMe) = true →
      (onReaction env reaction gm coll).enqueuedOn = some fc.id) ∧
    ((∀ fc, env.getConversation gm.conversationId = some fc →
        (isStory tmc && fc.isDirect && !fc.isMe) = false) →
      (∀ tc, env.getConversationForTargetMessage tcid reaction.targetTimestamp = some tc →
        (onReaction env reaction gm coll).enqueuedOn = some tc.id) ∧
      (env.getConversationForTargetMessage tcid reaction.targetTimestamp = none →
        (onReaction env reaction gm coll).enqueuedOn = none ∧
        (onReaction env reaction gm coll).logs = ["No target conversation for reaction"] ∧
        (onReaction env reaction gm coll).handleReactionCalls = [] ∧
        (onReaction env reaction gm coll).savedMessages = [] ∧
        (onReaction env reaction gm coll).addedMessageIds = [] ∧
        (onReaction env reaction gm coll).collection = coll ∧
        (onReaction env reaction gm coll).errorCaught = false)) := by
  have hun := onReaction_after_candidate env reaction gm coll tcid tmc h1 h2
  constructor
  · intro fc hfc hcond
    have hres : resolveTargetConversation env gm tmc tcid reaction.targetTimestamp =
        some fc := by
      unfold resolveTargetConversation
      rw [hfc]
      show (if (isStory tmc && fc.isDirect && !fc.isMe) = true then some fc
        else env.getConversationForTargetMessage tcid reaction.targetTimestamp) = some fc
      rw [if_pos hcond]
    rw [hun, hres]
    exact applyStep_enqueuedOn env reaction gm coll tcid fc
  · intro hnot
    have hres : resolveTargetConversation env gm tmc tcid reaction.targetTimestamp =
        env.getConversationForTargetMessage tcid reaction.targetTimestamp := by
      unfold resolveTargetConversation
      cases hg : env.getConversation gm.conversationId with
      | none => rfl
      | some fc =>
        have hfalse := hnot fc hg
        show (if (isStory tmc && fc.isDirect && !fc.isMe) = true then some fc
          else env.getConversationForTargetMessage tcid reaction.targetTimestamp) =
          env.getConversationForTargetMessage tcid reaction.targetTimestamp
        rw [if_neg (by rw [hfalse]; exact Bool.false_ne_true)]
    constructor
    · intro tc htc
      rw [hun, hres, htc]
      exact applyStep_enqueuedOn env reaction gm coll tcid tc
    · intro hnone
      rw [hun, hres, hnone]
      exact ⟨rfl, rfl, rfl, rfl, rfl, rfl, rfl⟩

/-- C4 witness: the story special case at a concrete input — the stored
candidate is a story and the reaction arrived in a direct non-self
conversation, so the job is enqueued on the sending conversation. -/
theorem onReaction_target_conversation_choice_witness :
    (onReaction envStory reA gmA [reA]).enqueuedOn = some "conv-d" :=
  (onReaction_target_conversation_choice envStory reA gmA [reA] "conv-a"
    msgStory rfl (by decide)).1 convDirect rfl (by decide)

/-- C1: when the target message exists both at the initial lookup and at
the re-fetch inside the conversation queue, onReaction makes at most one
handleReaction call, and whenever the apply step ran to completion without
a caught error, no record with the reaction client id remains in the
collection. -/
theorem onReaction_applies_at_most_once (env : Env) (reaction : ReactionModel)
    (gm : MessageAttributes) (coll : List ReactionModel) (tcid : String)
    (mck mapp : MessageAttributes)
    (h1 : env.lookupOrCreate reaction.targetAuthorUuid = some tcid)
    (h2 : findMessage env.messagesAtLookup reaction.targetTimestamp tcid = some mck)
    (h3 : findMessage env.messagesAtApply reaction.targetTimestamp tcid = some mapp) :
    (onReaction env reaction gm coll).handleReactionCalls.length ≤ 1 ∧
    ((onReaction env reaction gm coll).enqueuedOn ≠ none →
      (onReaction env reaction gm coll).errorCaught = false →
      reaction.cid ∉ (onReaction env reaction gm coll).collection.map (fun x => x.cid)) := by
  rw [onReaction_after_candidate env reaction gm coll tcid mck h1 h2]
  cases hres : resolveTargetConversation env gm mck tcid reaction.targetTimestamp with
  | none => exact ⟨by simp, fun henq _ => absurd rfl henq⟩
  | some tconv =>
    show (applyStep env reaction gm coll tcid tconv).handleReactionCalls.length ≤ 1 ∧ _
    unfold applyStep
    simp only [h3]
    cases hst : isStory mapp <;> cases hs : env.saveOk <;> cases hh : env.handleOk <;>
        simp only [hst, hs, hh, Bool.false_eq_true, Bool.true_eq_false, if_true,
          if_false, ite_true, ite_false, if_pos, if_neg]
    case false.false.false =>
      exact ⟨by simp, fun _ hec => absurd hec (by decide)⟩
    case false.false.true =>
      exact ⟨by simp, fun _ _ => cid_not_mem_removeOne coll reaction⟩
    case false.true.false =>
      exact ⟨by simp, fun _ hec => absurd hec (by decide)⟩
    case false.true.true =>
      exact ⟨by simp, fun _ _ => cid_not_mem_removeOne coll reaction⟩
    case true.false.false =>
      exact ⟨by simp, fun _ hec => absurd hec (by decide)⟩
    case true.false.true =>
      exact ⟨by simp, fun _ hec => absurd hec (by decide)⟩
    case true.true.false =>
      exact ⟨by simp, fun _ hec => absurd hec (by decide)⟩
    case true.true.true =>
      exact ⟨by simp, fun _ _ => cid_not_mem_removeOne coll reaction⟩

/-- C1 witness: at a concrete resolvable input, exactly one handleReaction
call and no trace of the reaction left in the collection. -/
theorem onReaction_applies_at_most_once_witness :
    (onReaction envOk reA gmA [reA]).handleReactionCalls.length ≤ 1 ∧
    ((onReaction envOk reA gmA [reA]).enqueuedOn ≠ none →
      (onReaction envOk reA gmA [reA]).errorCaught = false →
      reA.cid ∉ (onReaction envOk reA gmA [reA]).collection.map (fun x => x.cid)) :=
  onReaction_applies_at_most_once envOk reA gmA [reA] "conv-a"
    msgIncoming msgIncoming rfl (by decide) (by decide)

/-- C5: when the re-fetched target is a story (with a resolvable target
conversation and a successful save), the apply step writes storyId and the
full storyReaction metadata onto the generated placeholder, persists
exactly that placeholder with forceSave, and links exactly the placeholder
(not the story) into the target conversation, whose queue received the
job. -/
theorem onReaction_story_creates_linked_message (env : Env) (reaction : ReactionModel)
    (gm : MessageAttributes) (coll : List ReactionModel) (tcid : String)
    (mck tm : MessageAttributes) (tc : ConversationModel)
    (h1 : env.lookupOrCreate reaction.targetAuthorUuid = some tcid)
    (h2 : findMessage env.messagesAtLookup reaction.targetTimestamp tcid = some mck)
    (hres : resolveTargetConversation env gm mck tcid reaction.targetTimestamp = some tc)
    (h3 : findMessage env.messagesAtApply reaction.targetTimestamp tcid = some tm)
    (hstory : isStory tm = true)
    (hsave : env.saveOk = true) :
    (onReaction env reaction gm coll).generatedMessage.storyId = some tm.id ∧
    (onReaction env reaction gm coll).generatedMessage.storyReaction =
      some { emoji := reaction.emoji
             targetAuthorUuid := reaction.targetAuthorUuid
             targetTimestamp := reaction.targetTimestamp } ∧
    (onReaction env reaction gm coll).generatedMessage.expireTimer = tc.expireTimer ∧
    (onReaction env reaction gm coll).savedMessages =
      [((onReaction env reaction gm coll).generatedMessage, true)] ∧
    (onReaction env reaction gm coll).addedMessageIds = [gm.id] ∧
    (onReaction env reaction gm coll).generatedMessage.id = gm.id ∧
    (onReaction env reaction gm coll).enqueuedOn = some tc.id := by
  have hun := onReaction_after_candidate env reaction gm coll tcid mck h1 h2
  rw [hres] at hun
  rw [hun]
  unfold applyStep
  simp only [h3, hstory, hsave, if_true, ite_true]
  cases hh : env.handleOk <;>
    simp only [Bool.false_eq_true, Bool.true_eq_false, if_true, if_false, ite_true,
      ite_false] <;>
    refine ⟨?_, ?_, ?_, ?_, ?_, ?_, ?_⟩ <;> trivial

/-- C5 witness: the concrete story reaction produces the placeholder (id
g1) as the saved and linked message in the direct conversation. -/
theorem onReaction_story_creates_linked_message_witness :
    (onReaction envStory reA gmA [reA]).generatedMessage.storyId = some "st1" ∧
    (onReaction envStory reA gmA [reA]).addedMessageIds = ["g1"] ∧
    (onReaction envStory reA gmA [reA]).enqueuedOn = some "conv-d" := by
  have h := onReaction_story_creates_linked_message envStory reA gmA [reA] "conv-a"
    msgStory msgStory convDirect rfl (by decide) (by decide) (by decide) rfl rfl
  exact ⟨h.1, h.2.2.2.2.1, h.2.2.2.2.2.2⟩

/-- C8 (amended): once a target conversation was chosen, a missing message
at re-fetch makes the job return silently with no error and no removal;
a failing save on the story path and a failing handleReaction on either
path are caught at the onReaction boundary (errorCaught), and in every one
of these failure cases the reaction record stays in the collection. -/
theorem onReaction_apply_failure_caught_not_discarded (env : Env)
    (reaction : ReactionModel) (gm : MessageAttributes) (coll : List ReactionModel)
    (tcid : String) (mck : MessageAttributes) (tc : ConversationModel)
    (h1 : env.lookupOrCreate reaction.targetAuthorUuid = some tcid)
    (h2 : findMessage env.messagesAtLookup reaction.targetTimestamp tcid = some mck)
    (hres : resolveTargetConversation env gm mck tcid reaction.targetTimestamp = some tc) :
    ((findMessage env.messagesAtApply reaction.targetTimestamp tcid = none →
      (onReaction env reaction gm coll).errorCaught = false ∧
      (onReaction env reaction gm coll).collection = coll ∧
      (onReaction env reaction gm coll).handleReactionCalls = [] ∧
      (onReaction env reaction gm coll).savedMessages = []) ∧
    (∀ tm, findMessage env.messagesAtApply reaction.targetTimestamp tcid = some tm →
      isStory tm = false → env.handleOk = false →
      (onReaction env reaction gm coll).errorCaught = true ∧
      (onReaction env reaction gm coll).collection = coll) ∧
    (∀ tm, findMessage env.messagesAtApply reaction.targetTimestamp tcid = some tm →
      isStory tm = true → env.saveOk = false →
      (onReaction env reaction gm coll).errorCaught = true ∧
      (onReaction env reaction gm coll).collection = coll ∧
      (onReaction env reaction gm coll).savedMessages = [] ∧
      (onReaction env reaction gm coll).addedMessageIds = []) ∧
    (∀ tm, findMessage env.messagesAtApply reaction.targetTimestamp tcid = some tm →
      isStory tm = true → env.saveOk = true → env.handleOk = false →
      (onReaction env reaction gm coll).errorCaught = true ∧
      (onReaction env reaction gm coll).collection = coll)) := by
  have hun := onReaction_after_candidate env reaction gm coll tcid mck h1 h2
  rw [hres] at hun
  refine ⟨?_, ?_, ?_, ?_⟩
  · intro hnone
    rw [hun]
    unfold applyStep
    simp only [hnone]
    refine ⟨?_, ?_, ?_, ?_⟩ <;> trivial
  · intro tm htm hst hh
    rw [hun]
    unfold applyStep
    simp only [htm, hst, hh, Bool.false_eq_true, if_false, ite_false]
    refine ⟨?_, ?_⟩ <;> trivial
  · intro tm htm hst hs
    rw [hun]
    unfold applyStep
    simp only [htm, hst, hs, Bool.false_eq_true, if_true, ite_true, if_false, ite_false]
    refine ⟨?_, ?_, ?_, ?_⟩ <;> trivial
  · intro tm htm hst hs hh
    rw [hun]
    unfold applyStep
    simp only [htm, hst, hs, hh, Bool.false_eq_true, if_true, ite_true, if_false,
      ite_false]
    refine ⟨?_, ?_⟩ <;> trivial

/-- C8 amended-claim witness: at a concrete input with a failing
handleReaction, the error is caught and the reaction is still buffered. -/
theorem onReaction_apply_failure_caught_not_discarded_witness :
    (onReaction envHandleFails reA gmA [reA]).errorCaught = true ∧
    (onReaction envHandleFails reA gmA [reA]).collection = [reA] :=
  (onReaction_apply_failure_caught_not_discarded envHandleFails reA gmA [reA]
    "conv-a" msgIncoming convA rfl (by decide) (by decide)).2.1
    msgIncoming (by decide) rfl rfl

/-- C8 counterexample: at this concrete input the apply-step failure is
caught at the onReaction boundary, yet the reaction record is still an
element of the Reactions collection afterwards — the record is not
discarded from the pending buffer as the claim states. -/
theorem onReaction_apply_failure_record_retained_cex :
    (onReaction envHandleFails reA gmA [reA]).errorCaught = true ∧
    reA ∈ (onReaction envHandleFails reA gmA [reA]).collection := by
  decide

end Reactions

namespace Lightbox

/-- The selector in closed form: when showing, the matched index with the
-1 sentinel (and the index-0 match) collapsed to 0; otherwise 0. -/
theorem getSelectedIndex_closed_form (state : LightboxStateType) :
    getSelectedIndex state =
      (if state.isShowingLightbox then
        (match state.media.findIdx?
            (fun item => item.attachment.path == state.selectedAttachmentPath) with
         | some i => (i : Int)
         | none => 0)
      else 0) := by
  unfold getSelectedIndex jsFindIndex
  cases hshow : state.isShowingLightbox with
  | false => simp
  | true =>
    simp only [Bool.not_true, Bool.false_eq_true, if_false, if_true]
    cases hfind : state.media.findIdx?
        (fun item => item.attachment.path == state.selectedAttachmentPath) with
    | none => norm_num
    | some i =>
      simp only
      split
      · rfl
      · omega

/-- C9: getSelectedIndex never returns a negative number: it is 0 when the
lightbox is not showing or when no media item matches the selected
attachment path, and it equals the matching index (0 when the match is at
position 0, the positive index otherwise) when a match exists while
showing; the -1 sentinel of findIndex never escapes. -/
theorem getSelectedIndex_nonneg_spec (state : LightboxStateType) :
    0 ≤ getSelectedIndex state ∧
    (state.isShowingLightbox = false → getSelectedIndex state = 0) ∧
    (state.media.findIdx?
        (fun item => item.attachment.path == state.selectedAttachmentPath) = none →
      getSelectedIndex state = 0) ∧
    (∀ i : Nat,
      state.media.findIdx?
        (fun item => item.attachment.path == state.selectedAttachmentPath) = some i →
      state.isShowingLightbox = true → getSelectedIndex state = i) := by
  rw [getSelectedIndex_closed_form]
  refine ⟨?_, ?_, ?_, ?_⟩
  · split
    · cases hfind : state.media.findIdx?
          (fun item => item.attachment.path == state.selectedAttachmentPath) with
      | none => simp
      | some i => simp only; exact Int.natCast_nonneg i
    · exact le_refl 0
  · intro h
    rw [h]
    simp
  · intro h
    rw [h]
    split <;> rfl
  · intro i hi hshow
    rw [hshow, hi]
    simp

/-- C9 witness: a concrete lightbox state whose selected attachment sits
at position 2, where the selector returns 2 and is non-negative. -/
theorem getSelectedIndex_nonneg_spec_witness :
    0 ≤ getSelectedIndex
      { isShowingLightbox := true
        selectedAttachmentPath := some "p2"
        media := [⟨⟨some "p0"⟩⟩, ⟨⟨some "p1"⟩⟩, ⟨⟨some "p2"⟩⟩] } ∧
    getSelectedIndex
      { isShowingLightbox := true
        selectedAttachmentPath := some "p2"
        media := [⟨⟨some "p0"⟩⟩, ⟨⟨some "p1"⟩⟩, ⟨⟨some "p2"⟩⟩] } = 2 :=
  ⟨(getSelectedIndex_nonneg_spec _).1,
   (getSelectedIndex_nonneg_spec
      { isShowingLightbox := true
        selectedAttachmentPath := some "p2"
        media := [⟨⟨some "p0"⟩⟩, ⟨⟨some "p1"⟩⟩, ⟨⟨some "p2"⟩⟩] }).2.2.2 2
      (by decide) rfl⟩

end Lightbox

namespace DetailsGroups

/-- C10: in the collapsed state the component renders at most 5 group
rows, the show-all row appears iff the list has at least 7 groups, and for
exactly 6 groups only 5 rows render with no show-all row. -/
theorem collapsed_rendering_spec (gs : List ConversationModel) :
    (conversationDetailsGroupsRender false gs).groupRows.length ≤ maxShownGroupCount ∧
    ((conversationDetailsGroupsRender false gs).showAllRow = true ↔ 7 ≤ gs.length) ∧
    (gs.length = 6 →
      (conversationDetailsGroupsRender false gs).groupRows.length = 5 ∧
      (conversationDetailsGroupsRender false gs).showAllRow = false) := by
  unfold conversationDetailsGroupsRender maxShownGroupCount
  simp only [Bool.false_eq_true, if_false, Bool.not_false, Bool.true_and,
    List.length_take, decide_eq_true_eq]
  refine ⟨Nat.min_le_left _ _, by omega, fun h6 => ⟨by omega, ?_⟩⟩
  rw [decide_eq_false_iff_not]
  omega

/-- C10 witness: with exactly six groups in common and the panel
collapsed, five rows render and the show-all row is absent. -/
theorem collapsed_rendering_spec_witness :
    (conversationDetailsGroupsRender false
      [{ id := "g1" }, { id := "g2" }, { id := "g3" }, { id := "g4" },
       { id := "g5" }, { id := "g6" }]).groupRows.length = 5 ∧
    (conversationDetailsGroupsRender false
      [{ id := "g1" }, { id := "g2" }, { id := "g3" }, { id := "g4" },
       { id := "g5" }, { id := "g6" }]).showAllRow = false :=
  (collapsed_rendering_spec
    [{ id := "g1" }, { id := "g2" }, { id := "g3" }, { id := "g4" },
     { id := "g5" }, { id := "g6" }]).2.2 rfl

end DetailsGroups

end Signal
